import Mathlib

/-!
# Verification of the antidote dependency-injection core

Shallow embedding of the container + provider resolution core of the
`antidote` repository:

* `src/antidote/container/base.py` — `DependencyContainer.__getitem__`,
  the `Dependency` request wrapper and the `Instance` result wrapper;
* `src/antidote/container/proxy.py` — `ProxyContainer.__getitem__`;
* `src/antidote/providers/tag/provider.py` — `TagProvider.provide`,
  `TagProvider.register`, `TaggedDependencies`;
* `src/antidote/providers/lazy.py` — `LazyMethodCall.__get__`.

Python objects are modelled by natural-number identities; a freshly
constructed object receives a fresh identity drawn from a counter threaded
through the state, so "identical object" is identity of the `Item` value.
Exceptions are modelled by an explicit error type carried in `Except`.
The model is single-threaded: the instantiation lock of the container is
re-entrant and, on one thread, taking it is a no-op, so the sequential
semantics of `__getitem__` is exactly the code with the two `with`
managers read as (1) nothing and (2) the stack push/pop with cycle check.
-/

namespace Antidote

/-- A dependency id: an opaque hashable Python value, modelled by a number.
For ids we conflate the value with its hash (as CPython does for small
ints), which is sound because the code only ever hashes and compares ids. -/
abbrev DepId := Nat

/-- The identity of a built Python object. -/
abbrev Item := Nat

/-- The argument of `DependencyContainer.__getitem__` (base.py line 50):
either a bare dependency id or a `Dependency` wrapper around one
(base.py lines 107–133; this version of the class has `__slots__ = ('id',)`,
no extra arguments).  The `assert not isinstance(self.id, Dependency)` in
`Dependency.__init__` (line 126) makes the wrapper flat, which the
constructor `dep : DepId → DepRequest` enforces structurally. -/
inductive DepRequest where
  | bare (id : DepId)
  | dep (id : DepId)
deriving Repr, DecidableEq

/-- The id wrapped by a request. -/
def DepRequest.reqId : DepRequest → DepId
  | .bare x => x
  | .dep x => x

/-- Python `==` between request values, derived from `Dependency.__eq__`
(base.py lines 131–133: `self.id == other or (isinstance(other, Dependency)
and self.id == other.id)`) together with CPython's reflected-comparison
rule for the `bare == dep` direction (int.`__eq__` returns NotImplemented,
so `Dependency.__eq__(other, self)` is consulted). -/
def pyEqb : DepRequest → DepRequest → Bool
  | .bare x, .bare y => x == y
  | .bare x, .dep y => y == x
  | .dep x, .bare y => x == y
  | .dep x, .dep y => x == y

/-- Python `hash` of a request: `Dependency.__hash__` delegates to
`hash(self.id)` (base.py lines 128–129). -/
def pyHash : DepRequest → Nat
  | .bare x => x
  | .dep x => x

/-- The singleton cache `self._singletons`: a Python dict keyed by the raw
request objects (bare ids or `Dependency` wrappers), in insertion order. -/
abbrev Cache := List (DepRequest × Item)

/-- Python dict lookup: the first (unique) entry whose key is `==` to the
probe.  The hash pre-filter of CPython is omitted: here `pyEqb` implies
equal `pyHash`, so filtering by hash first does not change the result. -/
def dictFind (c : Cache) (k : DepRequest) : Option Item :=
  match c.find? (fun p => pyEqb p.1 k) with
  | some p => some p.2
  | none => none

/-- Python dict store `d[k] = v`: overwrite the value of an `==`-equal key
if present (the stored key object is kept), else append a new entry. -/
def dictInsert (c : Cache) (k : DepRequest) (v : Item) : Cache :=
  if c.any (fun p => pyEqb p.1 k) then
    c.map (fun p => if pyEqb p.1 k then (p.1, v) else p)
  else
    c ++ [(k, v)]

/-- The exception taxonomy of `antidote.exceptions` (the module itself is
not under src/; the classes are used by base.py, proxy.py and
tag/provider.py and listed in the spec's error-handling section).
`instantiation` chains its cause (`raise ... from e`, base.py line 88);
`providerError` stands for an arbitrary unexpected exception raised inside
a provider; `fuelExhausted` is a model artifact marking that the
recursion bound of the interpreter was reached, it corresponds to no
Python exception. -/
inductive Exc where
  | notFound (id : DepId)
  | cycle (path : List DepId)
  | instantiation (id : DepId) (cause : Exc)
  | duplicateTag (name : String)
  | providerError (code : Nat)
  | fuelExhausted
deriving Repr, DecidableEq

/-- `Instance` (base.py lines 136–148): what a provider returns, the built
item plus the singleton flag. -/
structure Instance where
  item : Item
  singleton : Bool
deriving Repr, DecidableEq

/-- What a provider does when it claims a dependency.  Providers are
arbitrary Python callables; the embedding closes them over the observable
behaviours a provider body can have towards the container:
return a constant object, construct a fresh object, call back into the
container for another dependency first (re-entrancy, base.py's reason for
the re-entrant lock), or raise. -/
inductive Recipe where
  | const (v : Item) (singleton : Bool)
  | fresh (singleton : Bool)
  | needs (d : DepId) (singleton : Bool)
  | raises (code : Nat)
deriving Repr, DecidableEq

/-- A provider's `__antidote_provide__`: given the id carried by the
`Dependency` wrapper the container passes (base.py lines 71–75), either
decline — in base.py the provider raises `DependencyNotProvidableError`,
which the loop treats purely as a no-match signal (lines 76–77), embedded
here as the value `none` — or claim it with a recipe. -/
abbrev Provider := DepId → Option Recipe

/-- Mutable state of a `DependencyContainer` visible to `__getitem__`:
the singleton cache, the (thread-local, here single-threaded)
instantiation stack, and the allocator counter for fresh object
identities. -/
structure ContainerState where
  singletons : Cache
  stack : List DepId
  fresh : Nat
deriving Repr, DecidableEq

/-- Run a claiming provider's body.  `recur` is the container lookup the
provider may re-enter (`needs`). -/
def runRecipe (recur : ContainerState → DepRequest → Except Exc (Item × ContainerState))
    (st : ContainerState) : Recipe → Except Exc (Instance × ContainerState)
  | .const v s => .ok (⟨v, s⟩, st)
  | .fresh s => .ok (⟨st.fresh, s⟩, { st with fresh := st.fresh + 1 })
  | .needs d s =>
    match recur st (.bare d) with
    | .ok (v, st') => .ok (⟨v, s⟩, st')
    | .error e => .error e
  | .raises code => .error (.providerError code)

/-- The provider loop of `__getitem__` (base.py lines 69–82): iterate the
registered providers in registration order; a `DependencyNotProvidableError`
(here: `none`) moves to the next provider; the first claiming provider's
result is returned — `.ok none` means every provider declined, an
exception from a claiming provider's body propagates out of the loop. -/
def providerLoop (recur : ContainerState → DepRequest → Except Exc (Item × ContainerState)) :
    List Provider → ContainerState → DepId → Except Exc (Option (Instance × ContainerState))
  | [], _, _ => .ok none
  | p :: rest, st, id =>
    match p id with
    | none => providerLoop recur rest st id
    | some r =>
      match runRecipe recur st r with
      | .ok (inst, st') => .ok (some (inst, st'))
      | .error e => .error e

/-- The handlers at base.py lines 84–88: `DependencyCycleError` is
re-raised unwrapped, anything else is wrapped as
`DependencyInstantiationError(dependency)` chaining the cause.
The model artifact `fuelExhausted` is also left unwrapped so that running
out of fuel is always visible as itself. -/
def wrapExc (id : DepId) : Exc → Exc
  | .cycle path => .cycle path
  | .fuelExhausted => .fuelExhausted
  | e => .instantiation id e

/-- `DependencyContainer.__getitem__` (base.py lines 50–90), fuel-indexed.

Line-by-line: fast-path cache probe (56–59); lock acquisition is a no-op
on one thread; `instantiating(dependency)` — modelled from the spec, since
container/stack.py is absent from src/: "Push the request's id onto the
current thread's instantiation stack; if the id is already present, fail
immediately with `DependencyCycleError` carrying the full cycle path", and
"Pop the instantiation stack entry (always, even on error)"; cache
re-probe under the lock (64–67); provider loop (69–82); singleton results
stored before returning (79–80); exception wrapping (84–88); no provider
claimed it: `DependencyNotFoundError(dependency)` (90).  Error results
carry no state: the pop-on-unwind of the context manager means the failed
call leaves the stack as it found it. -/
def resolve (providers : List Provider) :
    Nat → ContainerState → DepRequest → Except Exc (Item × ContainerState)
  | 0 => fun _ _ => .error .fuelExhausted
  | fuel + 1 => fun st req =>
    match dictFind st.singletons req with
    | some item => .ok (item, st)
    | none =>
      if req.reqId ∈ st.stack then
        .error (.cycle (st.stack ++ [req.reqId]))
      else
        let st1 : ContainerState := { st with stack := st.stack ++ [req.reqId] }
        match dictFind st1.singletons req with
        | some item => .ok (item, { st1 with stack := st1.stack.dropLast })
        | none =>
          match providerLoop (resolve providers fuel) providers st1 req.reqId with
          | .error e => .error (wrapExc req.reqId e)
          | .ok none => .error (.notFound req.reqId)
          | .ok (some (inst, st2)) =>
            let st3 : ContainerState :=
              if inst.singleton then
                { st2 with singletons := dictInsert st2.singletons req inst.item }
              else st2
            .ok (inst.item, { st3 with stack := st3.stack.dropLast })

/-- `ProxyContainer.__getitem__` (proxy.py lines 48–52): ids in the
`missing` set raise `DependencyNotFoundError` before the cache or any
provider is consulted; everything else defers to the base container.
Membership in the Python set is by `==`/hash, so a wrapped request hits an
entry for its bare id; this is the id-level membership used here. -/
def proxyGetItem (missing : List DepId) (providers : List Provider)
    (fuel : Nat) (st : ContainerState) (req : DepRequest) :
    Except Exc (Item × ContainerState) :=
  if req.reqId ∈ missing then
    .error (.notFound req.reqId)
  else
    resolve providers fuel st req

/-- Modelled from the spec: the `Tag` class of providers/tag/dependency.py,
which is absent from src/. "a Tag is a named marker (plus optional
attributes) attachable to a dependency id" — only the name is consulted by
tag/provider.py, so only the name is modelled. -/
structure Tag where
  name : String
deriving Repr, DecidableEq

/-- Modelled from the spec: the `Tagged` request class of
providers/tag/dependency.py, absent from src/. "tag dependency 'ids' are
requests that name a tag by its string name" — `TagProvider.provide` reads
only `dependency.name` from it. -/
structure Tagged where
  name : String
deriving Repr, DecidableEq

/-- A dependency argument as seen by `TagProvider.provide`
(tag/provider.py line 99): either a `Tagged` request or any other Python
value ("all others are ignored"). -/
inductive TagQuery where
  | tagged (t : Tagged)
  | other (d : DepId)
deriving Repr, DecidableEq

/-- `TagProvider._dependency_to_tag_by_tag_name` (tag/provider.py line 90):
a dict from tag name to a dict from dependency id to `Tag`.  Both levels
are Python dicts, so insertion-ordered association lists with unique keys.
Tag names are strings, the inner keys are dependency ids. -/
abbrev TagTable := List (String × List (DepId × Tag))

/-- Outer dict probe `self._dependency_to_tag_by_tag_name.get(name, {})`. -/
def tagTableGet (table : TagTable) (name : String) : List (DepId × Tag) :=
  match table.find? (fun p => p.1 == name) with
  | some p => p.2
  | none => []

/-- `TaggedDependencies.__init__` (tag/provider.py lines 27–38): the
constructor eagerly drains the `tagged_dependencies` iterable into the two
private lists `_dependencies` and `_tags` — the collection is a snapshot
of the registrations passed to it.  The `_instances` lazy cache and its
lock belong to `instances()`, which no claim touches, and are omitted. -/
structure TaggedDependencies where
  dependencies : List DepId
  tags : List Tag
deriving Repr, DecidableEq

/-- `DependencyInstance` of the provider core consumed by
tag/provider.py: the built item plus the singleton flag, here specialised
to the `TaggedDependencies` item that `TagProvider.provide` builds. -/
structure TagDependencyInstance where
  item : TaggedDependencies
  singleton : Bool
deriving Repr, DecidableEq

/-- `TagProvider.provide` (tag/provider.py lines 99–130): a `Tagged`
request is answered with a `TaggedDependencies` built from the current
registrations under that tag name, wrapped with `singleton=False`; every
other request returns `None` — the explicit no-match value. -/
def tagProviderProvide (table : TagTable) : TagQuery → Option TagDependencyInstance
  | .tagged t =>
    let dependency_to_tag := tagTableGet table t.name
    some { item := { dependencies := dependency_to_tag.map (fun p => p.1)
                     tags := dependency_to_tag.map (fun p => p.2) }
           singleton := false }
  | .other _ => none

/-- `TagProvider.register` (tag/provider.py lines 132–155) for one tag
(the method folds this over its `tags` iterable; a `str` tag is first
converted to `Tag(tag)`, which changes nothing observable here): a fresh
tag name starts a new inner dict `{dependency: tag}`, a known name with an
unknown dependency id extends the inner dict, and a known (name,
dependency) pair raises `DuplicateTagError(tag.name)`. -/
def tagRegisterOne (table : TagTable) (dependency : DepId) (tag : Tag) :
    Except Exc TagTable :=
  match table.find? (fun p => p.1 == tag.name) with
  | none => .ok (table ++ [(tag.name, [(dependency, tag)])])
  | some entry =>
    if entry.2.any (fun q => q.1 == dependency) then
      .error (.duplicateTag tag.name)
    else
      .ok (table.map (fun p =>
        if p.1 == tag.name then (p.1, p.2 ++ [(dependency, tag)]) else p))

/-- `TagProvider.register` over its `tags` iterable. -/
def tagRegister (table : TagTable) (dependency : DepId) :
    List Tag → Except Exc TagTable
  | [] => .ok table
  | tag :: rest =>
    match tagRegisterOne table dependency tag with
    | .ok table' => tagRegister table' dependency rest
    | .error e => .error e

/-- The state a `LazyMethodCall` descriptor and its owner class share
during class-level access (lazy.py): the descriptor's `_singleton` and
`_key` slots, the owner's `__dict__` entries installed by `setattr`
(attribute name ↦ stored marker object), and the fresh-identity
allocator for newly constructed `LazyMethodCallDependency` markers. -/
structure LazyState where
  singleton : Bool
  key : Option String
  ownerAttrs : List (String × Item)
  fresh : Nat
deriving Repr, DecidableEq

/-- `getattr(owner, k)`: probe the owner's attribute dict. -/
def getAttr (attrs : List (String × Item)) (k : String) : Option Item :=
  match attrs.find? (fun p => p.1 == k) with
  | some p => some p.2
  | none => none

/-- `setattr(owner, k, v)`: overwrite or append. -/
def setAttr (attrs : List (String × Item)) (k : String) (v : Item) :
    List (String × Item) :=
  if attrs.any (fun p => p.1 == k) then
    attrs.map (fun p => if p.1 == k then (p.1, v) else p)
  else
    attrs ++ [(k, v)]

/-- `LazyMethodCall.__get__` with `instance is None` (lazy.py lines
39–46), i.e. class-level access.  `attrName` is the attribute name under
which the descriptor sits in `owner.__dict__` (what
`_get_attribute_name(owner)` retrieves).  Singleton path: on first access
(`self._key is None`) compute the key, install a fresh
`LazyMethodCallDependency` marker on the owner via `setattr`, and return
`getattr(owner, self._key)`; later accesses return `getattr(owner,
self._key)` unchanged.  Non-singleton path: build a fresh marker every
time.  `none` is an `AttributeError` from `getattr` (unreachable along
the descriptor's own accesses). -/
def lazyMethodCallGetClass (st : LazyState) (attrName : String) :
    Option (Item × LazyState) :=
  if st.singleton then
    match st.key with
    | none =>
      let k := attrName ++ "_dependency"
      let st' : LazyState :=
        { st with key := some k
                  ownerAttrs := setAttr st.ownerAttrs k st.fresh
                  fresh := st.fresh + 1 }
      match getAttr st'.ownerAttrs k with
      | some m => some (m, st')
      | none => none
    | some k =>
      match getAttr st.ownerAttrs k with
      | some m => some (m, st)
      | none => none
  else
    some (st.fresh, { st with fresh := st.fresh + 1 })

/-! ## Helper lemmas -/

/-- Python `==` on requests compares the wrapped ids, in every pairing of
bare and wrapped representations. -/
theorem pyEqb_eq_beq_reqId (a b : DepRequest) :
    pyEqb a b = (a.reqId == b.reqId) := by
  cases a <;> cases b <;> simp [pyEqb, DepRequest.reqId, eq_comm]

theorem pyEqb_true_iff (a b : DepRequest) :
    pyEqb a b = true ↔ a.reqId = b.reqId := by
  rw [pyEqb_eq_beq_reqId]
  exact beq_iff_eq

/-- A dict probe only depends on the probe key through its id. -/
theorem dictFind_congr (c : Cache) {k k' : DepRequest}
    (h : k.reqId = k'.reqId) : dictFind c k = dictFind c k' := by
  unfold dictFind
  have hp : (fun p : DepRequest × Item => pyEqb p.1 k)
      = (fun p : DepRequest × Item => pyEqb p.1 k') := by
    funext p
    rw [pyEqb_eq_beq_reqId, pyEqb_eq_beq_reqId, h]
  rw [hp]

/-- Storing under a key makes the value retrievable under any `==`-equal
key. -/
theorem dictFind_dictInsert_self (c : Cache) (k k' : DepRequest) (v : Item)
    (h : k.reqId = k'.reqId) : dictFind (dictInsert c k v) k' = some v := by
  rw [← dictFind_congr (dictInsert c k v) h]
  unfold dictInsert
  by_cases hany : c.any (fun p => pyEqb p.1 k) = true
  · rw [if_pos hany]
    induction c with
    | nil => simp at hany
    | cons p c ih =>
      by_cases hpk : pyEqb p.1 k = true
      · simp [dictFind, List.find?, hpk]
      · have hany' : c.any (fun p => pyEqb p.1 k) = true := by
          simpa [hpk] using hany
        simpa [dictFind, List.find?, hpk] using ih hany'
  · rw [if_neg hany]
    induction c with
    | nil => simp [dictFind, List.find?, pyEqb_eq_beq_reqId]
    | cons p c ih =>
      have hpk : pyEqb p.1 k = false := by
        by_contra hc
        exact hany (by simp [List.any_cons, Bool.eq_false_iff.mp ?_] ; simp_all)
      have hany' : ¬ c.any (fun q => pyEqb q.1 k) = true := by
        intro hc
        exact hany (by simp [List.any_cons, hc])
      simpa [dictFind, List.find?, hpk] using ih hany'

/-- Fast path (base.py lines 56–59): a cache hit returns the cached item
at once, with the container state untouched. -/
theorem resolve_cache_hit (P : List Provider) (fuel : Nat)
    (st : ContainerState) (req : DepRequest) (v : Item)
    (h : dictFind st.singletons req = some v) :
    resolve P (fuel + 1) st req = .ok (v, st) := by
  simp [resolve, h]

/-- Cycle branch: a cache miss for an id already on the instantiation
stack fails with the cycle error carrying the whole path. -/
theorem resolve_cycle_hit (P : List Provider) (fuel : Nat)
    (st : ContainerState) (req : DepRequest)
    (h1 : dictFind st.singletons req = none)
    (h2 : req.reqId ∈ st.stack) :
    resolve P (fuel + 1) st req = .error (.cycle (st.stack ++ [req.reqId])) := by
  simp [resolve, h1, h2]

/-- Provider-loop branch of `resolve`, all outcomes at once: on a cache
miss for an id not on the stack, the result is determined by the provider
loop run from the pushed state. -/
theorem resolve_miss_eq (P : List Provider) (fuel : Nat)
    (st : ContainerState) (req : DepRequest)
    (h1 : dictFind st.singletons req = none)
    (h2 : req.reqId ∉ st.stack) :
    resolve P (fuel + 1) st req =
      match providerLoop (resolve P fuel) P
          { st with stack := st.stack ++ [req.reqId] } req.reqId with
      | .error e => .error (wrapExc req.reqId e)
      | .ok none => .error (.notFound req.reqId)
      | .ok (some (inst, st2)) =>
        .ok (inst.item,
          { (if inst.singleton then
              { st2 with singletons := dictInsert st2.singletons req inst.item }
             else st2) with
            stack := (if inst.singleton then
              { st2 with singletons := dictInsert st2.singletons req inst.item }
             else st2).stack.dropLast }) := by
  simp only [resolve, h1]
  rw [if_neg h2]

/-- A declining provider is skipped: the loop result with it in front is
the loop result without it. -/
theorem providerLoop_skip
    (recur : ContainerState → DepRequest → Except Exc (Item × ContainerState))
    (p : Provider) (rest : List Provider) (st : ContainerState) (id : DepId)
    (h : p id = none) :
    providerLoop recur (p :: rest) st id = providerLoop recur rest st id := by
  simp [providerLoop, h]

/-- A prefix of declining providers is skipped wholesale. -/
theorem providerLoop_skip_declining
    (recur : ContainerState → DepRequest → Except Exc (Item × ContainerState))
    (ps1 ps2 : List Provider) (st : ContainerState) (id : DepId)
    (h : ∀ q ∈ ps1, q id = none) :
    providerLoop recur (ps1 ++ ps2) st id = providerLoop recur ps2 st id := by
  induction ps1 with
  | nil => rfl
  | cons p ps ih =>
    rw [List.cons_append,
      providerLoop_skip recur p (ps ++ ps2) st id (h p (by simp)),
      ih (fun q hq => h q (by simp [hq]))]

/-- Once a provider claims the id, the rest of the list is irrelevant:
the loop behaves as if that provider were the only one. -/
theorem providerLoop_claim_first
    (recur : ContainerState → DepRequest → Except Exc (Item × ContainerState))
    (p : Provider) (rest : List Provider) (st : ContainerState) (id : DepId)
    (r : Recipe) (h : p id = some r) :
    providerLoop recur (p :: rest) st id = providerLoop recur [p] st id := by
  simp only [providerLoop, h]

/-- If every provider declines, the loop reports that nothing matched. -/
theorem providerLoop_all_none
    (recur : ContainerState → DepRequest → Except Exc (Item × ContainerState))
    (ps : List Provider) (st : ContainerState) (id : DepId)
    (h : ∀ p ∈ ps, p id = none) :
    providerLoop recur ps st id = .ok none := by
  have := providerLoop_skip_declining recur ps [] st id h
  simpa using this

/-- A provider body leaves the instantiation stack as it found it,
provided the container lookups it re-enters do. -/
theorem runRecipe_stack_eq
    (recur : ContainerState → DepRequest → Except Exc (Item × ContainerState))
    (hrec : ∀ st req v st', recur st req = .ok (v, st') → st'.stack = st.stack)
    (st : ContainerState) (r : Recipe) (inst : Instance) (st' : ContainerState)
    (h : runRecipe recur st r = .ok (inst, st')) : st'.stack = st.stack := by
  cases r with
  | const v s =>
    simp only [runRecipe] at h
    cases h
    rfl
  | fresh s =>
    simp only [runRecipe] at h
    cases h
    rfl
  | needs d s =>
    simp only [runRecipe] at h
    cases hcall : recur st (.bare d) with
    | ok p =>
      rw [hcall] at h
      cases h
      exact hrec st (.bare d) p.1 p.2 (by rw [hcall])
    | error e =>
      rw [hcall] at h
      cases h
  | raises code =>
    simp only [runRecipe] at h
    cases h

/-- A successful provider loop leaves the instantiation stack as it found
it, provided re-entrant lookups do. -/
theorem providerLoop_stack_eq
    (recur : ContainerState → DepRequest → Except Exc (Item × ContainerState))
    (hrec : ∀ st req v st', recur st req = .ok (v, st') → st'.stack = st.stack)
    (ps : List Provider) (st : ContainerState) (id : DepId)
    (inst : Instance) (st' : ContainerState)
    (h : providerLoop recur ps st id = .ok (some (inst, st'))) :
    st'.stack = st.stack := by
  induction ps with
  | nil => simp [providerLoop] at h
  | cons p rest ih =>
    cases hp : p id with
    | none =>
      rw [providerLoop_skip recur p rest st id hp] at h
      exact ih h
    | some r =>
      simp only [providerLoop, hp] at h
      cases hrun : runRecipe recur st r with
      | ok q =>
        obtain ⟨inst2, st2⟩ := q
        rw [hrun] at h
        simp only at h
        cases h
        exact runRecipe_stack_eq recur hrec st r _ _ hrun
      | error e =>
        rw [hrun] at h
        simp at h

/-- `__getitem__` restores the instantiation stack on every successful
return: the push in `instantiating(dependency)` is always matched by the
pop on exit. -/
theorem resolve_stack_eq (P : List Provider) :
    ∀ (fuel : Nat) (st : ContainerState) (req : DepRequest) (v : Item)
      (st' : ContainerState),
      resolve P fuel st req = .ok (v, st') → st'.stack = st.stack := by
  intro fuel
  induction fuel with
  | zero =>
    intro st req v st' h
    simp [resolve] at h
  | succ fuel ih =>
    intro st req v st' h
    cases h1 : dictFind st.singletons req with
    | some item =>
      rw [resolve_cache_hit P fuel st req item h1] at h
      cases h
      rfl
    | none =>
      by_cases h2 : req.reqId ∈ st.stack
      · rw [resolve_cycle_hit P fuel st req h1 h2] at h
        cases h
      · rw [resolve_miss_eq P fuel st req h1 h2] at h
        cases hloop : providerLoop (resolve P fuel) P
            { st with stack := st.stack ++ [req.reqId] } req.reqId with
        | error e =>
          rw [hloop] at h
          cases h
        | ok o =>
          rw [hloop] at h
          cases o with
          | none => cases h
          | some q =>
            obtain ⟨inst, st2⟩ := q
            cases h
            have hst2 : st2.stack = st.stack ++ [req.reqId] :=
              providerLoop_stack_eq (resolve P fuel) ih P
                { st with stack := st.stack ++ [req.reqId] } req.reqId inst st2 hloop
            cases hsing : inst.singleton <;>
              simp [hsing, hst2, List.dropLast_concat]

/-- A concrete provider for tests and witnesses: it claims exactly the id
`target` and builds a fresh object on every call, flagged with the given
singleton flag. -/
def freshProviderAt (target : DepId) (s : Bool) : Provider :=
  fun j => if j == target then some (.fresh s) else none

/-! ## Claims -/

/-- **C1.** For every dependency lookup, container get first returns the
cached singleton if present; on a cache miss it re-checks the cache under
the lock, then consults providers in registration order, the first
provider that does not decline wins (later providers are not consulted),
and if that provider's result has singleton=true the item is stored in
the cache so that two consecutive gets for the same id return the
identical object, while a non-singleton result is rebuilt by the provider
on every lookup.  (The re-check under the lock is the second `dictFind`
probe in the body of `resolve`; on one thread it coincides with the fast
path, which part (i) states.) -/
theorem C1_resolution_cache_and_provider_order :
    (∀ (P : List Provider) (fuel : Nat) (st : ContainerState)
       (req : DepRequest) (v : Item),
      dictFind st.singletons req = some v →
      resolve P (fuel + 1) st req = .ok (v, st))
    ∧
    (∀ (recur : ContainerState → DepRequest → Except Exc (Item × ContainerState))
       (ps1 : List Provider) (p : Provider) (ps2 : List Provider)
       (st : ContainerState) (id : DepId) (r : Recipe),
      (∀ q ∈ ps1, q id = none) → p id = some r →
      providerLoop recur (ps1 ++ p :: ps2) st id = providerLoop recur [p] st id)
    ∧
    (∀ (P : List Provider) (fuel : Nat) (st : ContainerState)
       (req : DepRequest) (inst : Instance) (st2 : ContainerState),
      dictFind st.singletons req = none →
      req.reqId ∉ st.stack →
      providerLoop (resolve P fuel) P
          { st with stack := st.stack ++ [req.reqId] } req.reqId
        = .ok (some (inst, st2)) →
      inst.singleton = true →
      ∃ st', resolve P (fuel + 1) st req = .ok (inst.item, st')
        ∧ dictFind st'.singletons req = some inst.item
        ∧ ∀ fuel2, resolve P (fuel2 + 1) st' req = .ok (inst.item, st'))
    ∧
    (∀ (id : DepId) (st : ContainerState),
      dictFind st.singletons (.bare id) = none →
      id ∉ st.stack →
      ∃ st1 st2 v1 v2,
        resolve [freshProviderAt id false] 1 st (.bare id) = .ok (v1, st1)
        ∧ resolve [freshProviderAt id false] 1 st1 (.bare id) = .ok (v2, st2)
        ∧ v1 ≠ v2) := by
  refine ⟨?_, ?_, ?_, ?_⟩
  · intro P fuel st req v h
    exact resolve_cache_hit P fuel st req v h
  · intro recur ps1 p ps2 st id r hps1 hp
    rw [providerLoop_skip_declining recur ps1 (p :: ps2) st id hps1]
    exact providerLoop_claim_first recur p ps2 st id r hp
  · intro P fuel st req inst st2 h1 h2 hloop hsing
    have hstack2 : st2.stack = st.stack ++ [req.reqId] :=
      providerLoop_stack_eq (resolve P fuel) (resolve_stack_eq P fuel) P
        { st with stack := st.stack ++ [req.reqId] } req.reqId inst st2 hloop
    refine ⟨⟨dictInsert st2.singletons req inst.item, st.stack, st2.fresh⟩, ?_, ?_, ?_⟩
    · rw [resolve_miss_eq P fuel st req h1 h2, hloop]
      simp [hsing, hstack2, List.dropLast_concat]
    · exact dictFind_dictInsert_self st2.singletons req req inst.item rfl
    · intro fuel2
      exact resolve_cache_hit P fuel2 _ req inst.item
        (dictFind_dictInsert_self st2.singletons req req inst.item rfl)
  · intro id st h1 h2
    have hfp : ∀ s : ContainerState,
        providerLoop (resolve [freshProviderAt id false] 0)
            [freshProviderAt id false] s id
          = .ok (some (⟨s.fresh, false⟩, { s with fresh := s.fresh + 1 })) := by
      intro s
      simp [providerLoop, freshProviderAt, runRecipe]
    have e1 : resolve [freshProviderAt id false] 1 st (.bare id)
        = .ok (st.fresh, ⟨st.singletons, st.stack, st.fresh + 1⟩) := by
      rw [resolve_miss_eq [freshProviderAt id false] 0 st (.bare id) h1 h2]
      simp only [DepRequest.reqId]
      rw [hfp]
      simp [List.dropLast_concat]
    have h1' : dictFind
        (⟨st.singletons, st.stack, st.fresh + 1⟩ : ContainerState).singletons
        (.bare id) = none := h1
    have e2 : resolve [freshProviderAt id false] 1
          ⟨st.singletons, st.stack, st.fresh + 1⟩ (.bare id)
        = .ok (st.fresh + 1, ⟨st.singletons, st.stack, st.fresh + 2⟩) := by
      rw [resolve_miss_eq [freshProviderAt id false] 0 _ (.bare id) h1' h2]
      simp only [DepRequest.reqId]
      rw [hfp]
      simp [List.dropLast_concat]
    refine ⟨⟨st.singletons, st.stack, st.fresh + 1⟩,
      ⟨st.singletons, st.stack, st.fresh + 2⟩, st.fresh, st.fresh + 1, e1, e2, ?_⟩
    show st.fresh ≠ st.fresh + 1
    omega

/-- Witness for C1: a cache hit at id 3 (part i); a singleton provider at
id 2 whose result is cached and returned identically by the next get
(part iii); a non-singleton provider at id 4 rebuilding on each lookup
(part iv). -/
theorem C1_witness :
    (resolve [] 1 ⟨[(.bare 3, 7)], [], 0⟩ (.bare 3)
      = .ok (7, ⟨[(.bare 3, 7)], [], 0⟩))
    ∧ (∃ st', resolve [freshProviderAt 2 true] 1 ⟨[], [], 0⟩ (.bare 2)
          = .ok (0, st')
        ∧ dictFind st'.singletons (.bare 2) = some 0
        ∧ ∀ fuel2, resolve [freshProviderAt 2 true] (fuel2 + 1) st' (.bare 2)
          = .ok (0, st'))
    ∧ (∃ st1 st2 v1 v2,
        resolve [freshProviderAt 4 false] 1 ⟨[], [], 0⟩ (.bare 4) = .ok (v1, st1)
        ∧ resolve [freshProviderAt 4 false] 1 st1 (.bare 4) = .ok (v2, st2)
        ∧ v1 ≠ v2) := by
  refine ⟨?_, ?_, ?_⟩
  · exact C1_resolution_cache_and_provider_order.1 [] 0
      ⟨[(.bare 3, 7)], [], 0⟩ (.bare 3) 7 rfl
  · exact C1_resolution_cache_and_provider_order.2.2.1
      [freshProviderAt 2 true] 0 ⟨[], [], 0⟩ (.bare 2) ⟨0, true⟩ ⟨[], [2], 1⟩
      rfl (by simp) rfl rfl
  · exact C1_resolution_cache_and_provider_order.2.2.2 4 ⟨[], [], 0⟩
      rfl (by simp)

/-- **C2.** A get whose resolution path requires resolving the same
dependency id again, directly or transitively nested within the same
resolution call tree, raises DependencyCycleError carrying the cycle
path; resolving the same id twice sequentially (one resolution completing
before the next starts) does not raise.  Parts: (i) the nested re-entry
mechanism — a miss for an id already on the instantiation stack fails
with the cycle error and the full path; (ii) a completed resolution
always pops its entry, so consecutive top-level gets never see each other
on the stack; (iii) a transitive cycle 0 → 1 → 0; (iv) a direct cycle
0 → 0; (v) the same id resolved twice sequentially raises nothing. -/
theorem C2_cycle_detection :
    (∀ (P : List Provider) (fuel : Nat) (st : ContainerState) (req : DepRequest),
      dictFind st.singletons req = none →
      req.reqId ∈ st.stack →
      resolve P (fuel + 1) st req = .error (.cycle (st.stack ++ [req.reqId])))
    ∧
    (∀ (P : List Provider) (fuel : Nat) (st : ContainerState)
       (req : DepRequest) (v : Item) (st' : ContainerState),
      resolve P fuel st req = .ok (v, st') → st'.stack = st.stack)
    ∧
    (resolve [fun j => if j == 0 then some (.needs 1 false) else none,
              fun j => if j == 1 then some (.needs 0 false) else none] 3
        ⟨[], [], 0⟩ (.bare 0) = .error (.cycle [0, 1, 0]))
    ∧
    (resolve [fun j => if j == 0 then some (.needs 0 false) else none] 2
        ⟨[], [], 0⟩ (.bare 0) = .error (.cycle [0, 0]))
    ∧
    (resolve [freshProviderAt 5 false] 1 ⟨[], [], 0⟩ (.bare 5) = .ok (0, ⟨[], [], 1⟩)
     ∧ resolve [freshProviderAt 5 false] 1 ⟨[], [], 1⟩ (.bare 5) = .ok (1, ⟨[], [], 2⟩)) := by
  refine ⟨?_, ?_, ?_, ?_, ?_, ?_⟩
  · intro P fuel st req h1 h2
    exact resolve_cycle_hit P fuel st req h1 h2
  · intro P fuel st req v st' h
    exact resolve_stack_eq P fuel st req v st' h
  · rfl
  · rfl
  · rfl
  · rfl

/-- Witness for C2: part (i) applied to a state whose stack already holds
id 7, and part (ii) applied to a completed fresh-provider resolution. -/
theorem C2_witness :
    (resolve [] 1 ⟨[], [7], 0⟩ (.bare 7) = .error (.cycle [7, 7]))
    ∧ (⟨[], [], 1⟩ : ContainerState).stack = (⟨[], [], 0⟩ : ContainerState).stack := by
  refine ⟨?_, ?_⟩
  · exact C2_cycle_detection.1 [] 0 ⟨[], [7], 0⟩ (.bare 7) rfl (by decide)
  · exact C2_cycle_detection.2.1 [freshProviderAt 5 false] 1 ⟨[], [], 0⟩
      (.bare 5) 0 ⟨[], [], 1⟩ rfl

/-- **C3.** A provider signals that a dependency is outside its domain by
returning an explicit non-error "no match" value, not by raising an
exception; on receiving this signal the container moves on to the next
provider, and no container-core error is ever swallowed internally except
this no-match signal.  Parts: (i) `TagProvider.provide` answers every
request that is not a `Tagged` with the plain return value `None`
(`tagProviderProvide` is a total function into `Option`, so the no-match
answer is a value, not an error); (ii) the container's provider loop
moves past a provider that gave the no-match signal; (iii) any error a
claiming provider raises leaves the loop instead of being swallowed. -/
theorem C3_no_match_is_a_value_and_only_it_is_swallowed :
    (∀ (table : TagTable) (d : DepId),
      tagProviderProvide table (.other d) = none)
    ∧
    (∀ (recur : ContainerState → DepRequest → Except Exc (Item × ContainerState))
       (p : Provider) (rest : List Provider) (st : ContainerState) (id : DepId),
      p id = none →
      providerLoop recur (p :: rest) st id = providerLoop recur rest st id)
    ∧
    (∀ (recur : ContainerState → DepRequest → Except Exc (Item × ContainerState))
       (p : Provider) (rest : List Provider) (st : ContainerState) (id : DepId)
       (r : Recipe) (e : Exc),
      p id = some r →
      runRecipe recur st r = .error e →
      providerLoop recur (p :: rest) st id = .error e) := by
  refine ⟨?_, ?_, ?_⟩
  · intro table d
    rfl
  · intro recur p rest st id h
    exact providerLoop_skip recur p rest st id h
  · intro recur p rest st id r e hp hrun
    simp [providerLoop, hp, hrun]

/-- Witness for C3: the tag provider declines a plain id; the loop skips
a declining provider and surfaces a raising provider's error. -/
theorem C3_witness :
    (tagProviderProvide [] (.other 4) = none)
    ∧ (providerLoop (fun _ _ => .error .fuelExhausted)
        [fun _ => none, fun _ => some (.raises 7)] ⟨[], [], 0⟩ 1
      = providerLoop (fun _ _ => .error .fuelExhausted)
        [fun _ => some (.raises 7)] ⟨[], [], 0⟩ 1)
    ∧ (providerLoop (fun _ _ => .error .fuelExhausted)
        [fun _ => some (.raises 7)] ⟨[], [], 0⟩ 1
      = .error (.providerError 7)) := by
  refine ⟨?_, ?_, ?_⟩
  · exact C3_no_match_is_a_value_and_only_it_is_swallowed.1 [] 4
  · exact C3_no_match_is_a_value_and_only_it_is_swallowed.2.1
      (fun _ _ => .error .fuelExhausted) (fun _ => none)
      [fun _ => some (.raises 7)] ⟨[], [], 0⟩ 1 rfl
  · exact C3_no_match_is_a_value_and_only_it_is_swallowed.2.2
      (fun _ _ => .error .fuelExhausted) (fun _ => some (.raises 7))
      [] ⟨[], [], 0⟩ 1 (.raises 7) (.providerError 7) rfl rfl

/-- **C4.** For every id X that is not in the singleton cache and that no
registered provider claims, get(X) raises DependencyNotFoundError
carrying the requested id.  (The id is also not mid-resolution on the
instantiation stack, which for a top-level get is the empty stack.) -/
theorem C4_unclaimed_id_not_found (P : List Provider) (fuel : Nat)
    (st : ContainerState) (req : DepRequest)
    (h1 : dictFind st.singletons req = none)
    (h2 : req.reqId ∉ st.stack)
    (h3 : ∀ p ∈ P, p req.reqId = none) :
    resolve P (fuel + 1) st req = .error (.notFound req.reqId) := by
  rw [resolve_miss_eq P fuel st req h1 h2]
  rw [providerLoop_all_none (resolve P fuel) P
    { st with stack := st.stack ++ [req.reqId] } req.reqId h3]

/-- Witness for C4: a container with one provider claiming only id 0 has
no answer for id 9. -/
theorem C4_witness :
    resolve [freshProviderAt 0 true] 1 ⟨[], [], 0⟩ (.bare 9)
      = .error (.notFound 9) := by
  exact C4_unclaimed_id_not_found [freshProviderAt 0 true] 0 ⟨[], [], 0⟩
    (.bare 9) rfl (by simp)
    (by intro p hp; simp at hp; subst hp; rfl)

/-- **C5.** Any exception raised by a provider during get, other than
DependencyCycleError, is caught and re-raised as
DependencyInstantiationError carrying the requested id and chaining the
original exception as its cause; DependencyCycleError itself propagates
unwrapped.  (`fuelExhausted` is excluded: it is the model's recursion
bound, not a Python exception.)  The last two conjuncts run both paths
concretely: a provider raising an ordinary exception is wrapped with the
cause chained, and a nested cycle error crosses the provider boundary
unwrapped. -/
theorem C5_provider_errors_wrapped_cycle_unwrapped :
    (∀ (P : List Provider) (fuel : Nat) (st : ContainerState)
       (req : DepRequest) (e : Exc),
      dictFind st.singletons req = none →
      req.reqId ∉ st.stack →
      providerLoop (resolve P fuel) P
          { st with stack := st.stack ++ [req.reqId] } req.reqId = .error e →
      ((∀ path, e ≠ .cycle path) → e ≠ .fuelExhausted →
        resolve P (fuel + 1) st req = .error (.instantiation req.reqId e))
      ∧ (∀ path, e = .cycle path →
        resolve P (fuel + 1) st req = .error (.cycle path)))
    ∧
    (resolve [fun j => if j == 9 then some (.raises 7) else none] 1
        ⟨[], [], 0⟩ (.bare 9)
      = .error (.instantiation 9 (.providerError 7)))
    ∧
    (resolve [fun j => if j == 0 then some (.needs 0 false) else none] 2
        ⟨[], [], 0⟩ (.bare 0) = .error (.cycle [0, 0])) := by
  refine ⟨?_, ?_, ?_⟩
  · intro P fuel st req e h1 h2 hloop
    constructor
    · intro hnc hnf
      rw [resolve_miss_eq P fuel st req h1 h2, hloop]
      have hw : wrapExc req.reqId e = .instantiation req.reqId e := by
        cases e with
        | cycle path => exact absurd rfl (hnc path)
        | fuelExhausted => exact absurd rfl hnf
        | notFound id => rfl
        | instantiation id cause => rfl
        | duplicateTag name => rfl
        | providerError code => rfl
      show (Except.error (wrapExc req.reqId e) : Except Exc (Item × ContainerState))
        = .error (.instantiation req.reqId e)
      rw [hw]
    · intro path hpath
      subst hpath
      rw [resolve_miss_eq P fuel st req h1 h2, hloop]
      rfl
  · rfl
  · rfl

/-- Witness for C5: the wrapping branch of the main conjunct applied to a
concrete raising provider. -/
theorem C5_witness :
    resolve [fun j => if j == 9 then some (.raises 7) else none] 1
        ⟨[], [], 0⟩ (.bare 9)
      = .error (.instantiation 9 (.providerError 7)) := by
  exact (C5_provider_errors_wrapped_cycle_unwrapped.1
      [fun j => if j == 9 then some (.raises 7) else none] 0 ⟨[], [], 0⟩
      (.bare 9) (.providerError 7) rfl (by simp) rfl).1
    (by intro path h; cases h) (by intro h; cases h)

/-- **C6.** For every id x, the request wrapper Dependency(x) is equal to
x and hash(Dependency(x)) equals hash(x), so a bare id and a no-argument
request are interchangeable as singleton-cache keys: a value cached under
one is found when looked up under the other — both at the dict level and
through container get. -/
theorem C6_dependency_wrapper_interchangeable (x : DepId) :
    pyEqb (.dep x) (.bare x) = true
    ∧ pyEqb (.bare x) (.dep x) = true
    ∧ pyHash (.dep x) = pyHash (.bare x)
    ∧ (∀ (c : Cache) (v : Item),
        dictFind (dictInsert c (.bare x) v) (.dep x) = some v
        ∧ dictFind (dictInsert c (.dep x) v) (.bare x) = some v)
    ∧ (∀ (P : List Provider) (fuel : Nat) (st : ContainerState) (v : Item),
        dictFind st.singletons (.bare x) = some v →
        resolve P (fuel + 1) st (.dep x) = .ok (v, st))
    ∧ (∀ (P : List Provider) (fuel : Nat) (st : ContainerState) (v : Item),
        dictFind st.singletons (.dep x) = some v →
        resolve P (fuel + 1) st (.bare x) = .ok (v, st)) := by
  refine ⟨by simp [pyEqb], by simp [pyEqb], rfl, ?_, ?_, ?_⟩
  · intro c v
    exact ⟨dictFind_dictInsert_self c (.bare x) (.dep x) v rfl,
      dictFind_dictInsert_self c (.dep x) (.bare x) v rfl⟩
  · intro P fuel st v h
    refine resolve_cache_hit P fuel st (.dep x) v ?_
    rw [dictFind_congr st.singletons (show (DepRequest.dep x).reqId
      = (DepRequest.bare x).reqId from rfl)]
    exact h
  · intro P fuel st v h
    refine resolve_cache_hit P fuel st (.bare x) v ?_
    rw [dictFind_congr st.singletons (show (DepRequest.bare x).reqId
      = (DepRequest.dep x).reqId from rfl)]
    exact h

/-- Witness for C6: a value cached under the bare id 3 is returned by a
get for `Dependency(3)`, and conversely. -/
theorem C6_witness :
    (dictFind (dictInsert [] (.bare 3) 7) (.dep 3) = some 7)
    ∧ (resolve [] 1 ⟨[(.bare 3, 7)], [], 0⟩ (.dep 3)
        = .ok (7, ⟨[(.bare 3, 7)], [], 0⟩))
    ∧ (resolve [] 1 ⟨[(.dep 3, 7)], [], 0⟩ (.bare 3)
        = .ok (7, ⟨[(.dep 3, 7)], [], 0⟩)) := by
  refine ⟨?_, ?_, ?_⟩
  · exact ((C6_dependency_wrapper_interchangeable 3).2.2.2.1 [] 7).1
  · exact (C6_dependency_wrapper_interchangeable 3).2.2.2.2.1 [] 0
      ⟨[(.bare 3, 7)], [], 0⟩ 7 rfl
  · exact (C6_dependency_wrapper_interchangeable 3).2.2.2.2.2 [] 0
      ⟨[(.dep 3, 7)], [], 0⟩ 7 rfl

/-- A successful `register` of one tag appends the dependency to the
inner dict of that tag name (creating the inner dict if the name is
new). -/
theorem tagTableGet_registerOne (d : DepId) (tag : Tag) :
    ∀ (table table' : TagTable), tagRegisterOne table d tag = .ok table' →
      tagTableGet table' tag.name = tagTableGet table tag.name ++ [(d, tag)] := by
  intro table
  induction table with
  | nil =>
    intro table' h
    simp only [tagRegisterOne, List.find?] at h
    cases h
    simp [tagTableGet, List.find?]
  | cons p rest ih =>
    intro table' h
    by_cases hp : (p.1 == tag.name) = true
    · simp only [tagRegisterOne, List.find?, hp] at h
      by_cases hany : p.2.any (fun q => q.1 == d) = true
      · rw [if_pos hany] at h
        cases h
      · rw [if_neg hany] at h
        cases h
        simp [tagTableGet, List.find?, hp]
    · have hpf : (p.1 == tag.name) = false := by
        simpa using hp
      simp only [tagRegisterOne, List.find?, hpf] at h
      cases hfind : rest.find? (fun q => q.1 == tag.name) with
      | none =>
        simp only [hfind] at h
        cases h
        have h' : tagRegisterOne rest d tag = .ok (rest ++ [(tag.name, [(d, tag)])]) := by
          simp only [tagRegisterOne, hfind]
        have hrec := ih (rest ++ [(tag.name, [(d, tag)])]) h'
        simpa [tagTableGet, List.find?, hpf] using hrec
      | some entry =>
        simp only [hfind] at h
        by_cases hany : entry.2.any (fun q => q.1 == d) = true
        · rw [if_pos hany] at h
          cases h
        · rw [if_neg hany] at h
          cases h
          have h' : tagRegisterOne rest d tag
              = .ok (rest.map (fun q =>
                  if q.1 == tag.name then (q.1, q.2 ++ [(d, tag)]) else q)) := by
            simp only [tagRegisterOne, hfind]
            rw [if_neg hany]
          have hrec := ih _ h'
          simpa [tagTableGet, List.find?, hpf] using hrec

/-- `register` of one tag fails with `DuplicateTagError` exactly when the
dependency already carries a tag of that name. -/
theorem tagRegisterOne_duplicate_iff (table : TagTable) (d : DepId) (tag : Tag) :
    tagRegisterOne table d tag = .error (.duplicateTag tag.name)
      ↔ d ∈ (tagTableGet table tag.name).map (fun p => p.1) := by
  cases hfind : table.find? (fun p => p.1 == tag.name) with
  | none => simp [tagRegisterOne, tagTableGet, hfind]
  | some entry =>
    by_cases hany : entry.2.any (fun q => q.1 == d) = true
    · have hmem : d ∈ (tagTableGet table tag.name).map (fun p => p.1) := by
        unfold tagTableGet
        rw [hfind]
        simp only [List.any_eq_true, beq_iff_eq] at hany
        obtain ⟨q, hq, hqd⟩ := hany
        exact List.mem_map.mpr ⟨q, hq, hqd⟩
      have hL : tagRegisterOne table d tag = .error (.duplicateTag tag.name) := by
        simp only [tagRegisterOne, hfind, if_pos hany]
      exact iff_of_true hL hmem
    · have hmem : d ∉ (tagTableGet table tag.name).map (fun p => p.1) := by
        unfold tagTableGet
        rw [hfind]
        simp only [List.any_eq_true, beq_iff_eq] at hany
        push_neg at hany
        simp only [List.mem_map]
        rintro ⟨q, hq, hqd⟩
        exact absurd hqd (hany q hq)
      have hL : tagRegisterOne table d tag
          = .ok (table.map (fun p =>
              if p.1 == tag.name then (p.1, p.2 ++ [(d, tag)]) else p)) := by
        simp only [tagRegisterOne, hfind, if_neg hany]
      refine iff_of_false ?_ hmem
      rw [hL]
      intro hc
      cases hc

/-- `register` of one tag succeeds when the dependency does not already
carry a tag of that name. -/
theorem tagRegisterOne_ok_of_not_mem (table : TagTable) (d : DepId) (tag : Tag)
    (h : d ∉ (tagTableGet table tag.name).map (fun p => p.1)) :
    ∃ table', tagRegisterOne table d tag = .ok table' := by
  cases hfind : table.find? (fun p => p.1 == tag.name) with
  | none =>
    exact ⟨table ++ [(tag.name, [(d, tag)])], by simp only [tagRegisterOne, hfind]⟩
  | some entry =>
    have hany : ¬ entry.2.any (fun q => q.1 == d) = true := by
      unfold tagTableGet at h
      rw [hfind] at h
      simp only [List.mem_map] at h
      push_neg at h
      simp only [List.any_eq_true, beq_iff_eq]
      rintro ⟨q, hq, hqd⟩
      exact absurd hqd (h q hq)
    exact ⟨table.map (fun p =>
        if p.1 == tag.name then (p.1, p.2 ++ [(d, tag)]) else p),
      by simp only [tagRegisterOne, hfind, if_neg hany]⟩

/-- `register` with a single tag behaves as one `tagRegisterOne` step. -/
theorem tagRegister_single (table : TagTable) (d : DepId) (tag : Tag) :
    tagRegister table d [tag]
      = match tagRegisterOne table d tag with
        | .ok t' => .ok t'
        | .error e => .error e := by
  cases h : tagRegisterOne table d tag <;> simp [tagRegister, h]

/-- **C7.** TagProvider.provide answers only requests that ask for
everything tagged with a given name (returning a no-match signal for
every other request kind); when it matches, it returns a
TaggedDependencies collection that is never a singleton and whose
membership is a snapshot of the registrations existing at request time,
so tags registered after the collection was created do not appear in it. -/
theorem C7_tag_provider_snapshot_never_singleton :
    (∀ (table : TagTable) (d : DepId),
      tagProviderProvide table (.other d) = none)
    ∧
    (∀ (table : TagTable) (t : Tagged),
      tagProviderProvide table (.tagged t)
        = some { item := { dependencies := (tagTableGet table t.name).map (fun p => p.1)
                           tags := (tagTableGet table t.name).map (fun p => p.2) }
                 singleton := false })
    ∧
    (∀ (table table' : TagTable) (t : Tagged) (d : DepId) (tag : Tag),
      tag.name = t.name →
      d ∉ (tagTableGet table t.name).map (fun p => p.1) →
      tagRegisterOne table d tag = .ok table' →
      ∃ coll coll',
        tagProviderProvide table (.tagged t) = some coll
        ∧ tagProviderProvide table' (.tagged t) = some coll'
        ∧ coll.singleton = false
        ∧ coll'.singleton = false
        ∧ d ∉ coll.item.dependencies
        ∧ d ∈ coll'.item.dependencies) := by
  refine ⟨?_, ?_, ?_⟩
  · intro table d
    rfl
  · intro table t
    rfl
  · intro table table' t d tag hname hnot hreg
    have hget : tagTableGet table' t.name = tagTableGet table t.name ++ [(d, tag)] := by
      have hcore := tagTableGet_registerOne d tag table table' hreg
      rwa [hname] at hcore
    refine ⟨_, _, rfl, rfl, rfl, rfl, hnot, ?_⟩
    show d ∈ (tagTableGet table' t.name).map (fun p => p.1)
    rw [hget]
    simp

/-- Witness for C7: tagging id 1 with "db" in an empty provider; the
collection taken before registration is empty, the one taken after
contains id 1, and neither is a singleton. -/
theorem C7_witness :
    ∃ coll coll',
      tagProviderProvide [] (.tagged ⟨"db"⟩) = some coll
      ∧ tagProviderProvide [("db", [(1, ⟨"db"⟩)])] (.tagged ⟨"db"⟩) = some coll'
      ∧ coll.singleton = false
      ∧ coll'.singleton = false
      ∧ 1 ∉ coll.item.dependencies
      ∧ 1 ∈ coll'.item.dependencies := by
  exact C7_tag_provider_snapshot_never_singleton.2.2
    [] [("db", [(1, ⟨"db"⟩)])] ⟨"db"⟩ 1 ⟨"db"⟩ rfl (by simp [tagTableGet]) rfl

/-- **C8.** TagProvider.register raises DuplicateTagError exactly when
the given tag name has already been registered for the same dependency
id; registering the same tag name on two different dependency ids
succeeds, and both ids then appear in the collection returned for that
tag. -/
theorem C8_duplicate_tag_same_id_only :
    (∀ (table : TagTable) (d : DepId) (tag : Tag),
      tagRegister table d [tag] = .error (.duplicateTag tag.name)
        ↔ d ∈ (tagTableGet table tag.name).map (fun p => p.1))
    ∧
    (∀ (table : TagTable) (d1 d2 : DepId) (tag : Tag),
      d1 ∉ (tagTableGet table tag.name).map (fun p => p.1) →
      d2 ∉ (tagTableGet table tag.name).map (fun p => p.1) →
      d1 ≠ d2 →
      ∃ table1 table2,
        tagRegister table d1 [tag] = .ok table1
        ∧ tagRegister table1 d2 [tag] = .ok table2
        ∧ ∃ coll, tagProviderProvide table2 (.tagged ⟨tag.name⟩) = some coll
          ∧ d1 ∈ coll.item.dependencies
          ∧ d2 ∈ coll.item.dependencies) := by
  refine ⟨?_, ?_⟩
  · intro table d tag
    have hiff : tagRegister table d [tag] = .error (.duplicateTag tag.name)
        ↔ tagRegisterOne table d tag = .error (.duplicateTag tag.name) := by
      cases hone : tagRegisterOne table d tag with
      | ok t' => simp [tagRegister, hone]
      | error e => simp [tagRegister, hone]
    rw [hiff]
    exact tagRegisterOne_duplicate_iff table d tag
  · intro table d1 d2 tag h1 h2 hne
    obtain ⟨table1, hreg1⟩ := tagRegisterOne_ok_of_not_mem table d1 tag h1
    have hget1 : tagTableGet table1 tag.name
        = tagTableGet table tag.name ++ [(d1, tag)] :=
      tagTableGet_registerOne d1 tag table table1 hreg1
    have h2' : d2 ∉ (tagTableGet table1 tag.name).map (fun p => p.1) := by
      rw [hget1]
      simp only [List.map_append, List.mem_append]
      rintro (hmem | hmem)
      · exact h2 hmem
      · simp only [List.map_cons, List.map_nil, List.mem_singleton] at hmem
        exact hne hmem.symm
    obtain ⟨table2, hreg2⟩ := tagRegisterOne_ok_of_not_mem table1 d2 tag h2'
    have hget2 : tagTableGet table2 tag.name
        = tagTableGet table1 tag.name ++ [(d2, tag)] :=
      tagTableGet_registerOne d2 tag table1 table2 hreg2
    refine ⟨table1, table2, ?_, ?_, ?_⟩
    · simp [tagRegister, hreg1]
    · simp [tagRegister, hreg2]
    · refine ⟨_, rfl, ?_, ?_⟩
      · show d1 ∈ (tagTableGet table2 (Tagged.mk tag.name).name).map (fun p => p.1)
        rw [hget2, hget1]
        simp
      · show d2 ∈ (tagTableGet table2 (Tagged.mk tag.name).name).map (fun p => p.1)
        rw [hget2]
        simp

/-- Witness for C8: re-tagging id 1 with "db" fails with
DuplicateTagError, while tagging distinct ids 1 and 2 with "db" succeeds
and yields a collection containing both. -/
theorem C8_witness :
    (tagRegister [("db", [(1, ⟨"db"⟩)])] 1 [⟨"db"⟩]
      = .error (.duplicateTag "db"))
    ∧ (∃ table1 table2,
        tagRegister [] 1 [(⟨"db"⟩ : Tag)] = .ok table1
        ∧ tagRegister table1 2 [(⟨"db"⟩ : Tag)] = .ok table2
        ∧ ∃ coll, tagProviderProvide table2 (.tagged ⟨"db"⟩) = some coll
          ∧ 1 ∈ coll.item.dependencies
          ∧ 2 ∈ coll.item.dependencies) := by
  refine ⟨?_, ?_⟩
  · exact (C8_duplicate_tag_same_id_only.1 [("db", [(1, ⟨"db"⟩)])] 1 ⟨"db"⟩).mpr
      (by simp [tagTableGet, List.find?])
  · exact C8_duplicate_tag_same_id_only.2 [] 1 2 ⟨"db"⟩
      (by simp [tagTableGet]) (by simp [tagTableGet]) (by decide)

/-- `getattr` right after `setattr` of the same name retrieves the stored
value. -/
theorem getAttr_setAttr (attrs : List (String × Item)) (k : String) (v : Item) :
    getAttr (setAttr attrs k v) k = some v := by
  unfold setAttr
  by_cases hany : attrs.any (fun p => p.1 == k) = true
  · rw [if_pos hany]
    induction attrs with
    | nil => simp at hany
    | cons p rest ih =>
      by_cases hp : (p.1 == k) = true
      · simp [getAttr, List.find?, hp]
      · have hrest : rest.any (fun p => p.1 == k) = true := by
          simpa [List.any_cons, hp] using hany
        simpa [getAttr, List.find?, hp] using ih hrest
  · rw [if_neg hany]
    induction attrs with
    | nil => simp [getAttr, List.find?]
    | cons p rest ih =>
      have hp : (p.1 == k) = false := by
        by_contra hc
        simp only [Bool.not_eq_false] at hc
        exact hany (by simp [List.any_cons, hc])
      have hrest : ¬ rest.any (fun p => p.1 == k) = true := by
        intro hc
        exact hany (by simp [List.any_cons, hc])
      simpa [getAttr, List.find?, hp] using ih hrest

/-- **C9.** For a singleton LazyMethodCall descriptor, class-level access
(instance is None) creates its marker dependency object on the first
access for the owning class and every subsequent class-level access
returns that identical marker object; for a non-singleton
LazyMethodCall, each class-level access returns a fresh marker object. -/
theorem C9_lazy_method_call_marker_caching :
    (∀ (st : LazyState) (attrName : String),
      st.singleton = true → st.key = none →
      ∃ st', lazyMethodCallGetClass st attrName = some (st.fresh, st')
        ∧ lazyMethodCallGetClass st' attrName = some (st.fresh, st'))
    ∧
    (∀ (st : LazyState) (attrName : String),
      st.singleton = false →
      ∃ st1 st2,
        lazyMethodCallGetClass st attrName = some (st.fresh, st1)
        ∧ lazyMethodCallGetClass st1 attrName = some (st.fresh + 1, st2)
        ∧ st.fresh ≠ st.fresh + 1) := by
  refine ⟨?_, ?_⟩
  · intro st attrName hsing hkey
    refine ⟨{ st with
              key := some (attrName ++ "_dependency")
              ownerAttrs := setAttr st.ownerAttrs (attrName ++ "_dependency") st.fresh
              fresh := st.fresh + 1 }, ?_, ?_⟩
    · simp [lazyMethodCallGetClass, hsing, hkey, getAttr_setAttr]
    · simp [lazyMethodCallGetClass, hsing, getAttr_setAttr]
  · intro st attrName hsing
    refine ⟨{ st with fresh := st.fresh + 1 },
      { st with fresh := st.fresh + 2 }, ?_, ?_, ?_⟩
    · simp [lazyMethodCallGetClass, hsing]
    · simp [lazyMethodCallGetClass, hsing]
    · omega

/-- Witness for C9: the singleton descriptor at attribute "conf" caches
one marker (identity 0); the non-singleton one yields markers 0 then 1. -/
theorem C9_witness :
    (∃ st', lazyMethodCallGetClass ⟨true, none, [], 0⟩ "conf" = some (0, st')
      ∧ lazyMethodCallGetClass st' "conf" = some (0, st'))
    ∧ (∃ st1 st2,
        lazyMethodCallGetClass ⟨false, none, [], 0⟩ "conf" = some (0, st1)
        ∧ lazyMethodCallGetClass st1 "conf" = some (1, st2)
        ∧ (0 : Item) ≠ 1) := by
  refine ⟨?_, ?_⟩
  · exact C9_lazy_method_call_marker_caching.1 ⟨true, none, [], 0⟩ "conf" rfl rfl
  · exact C9_lazy_method_call_marker_caching.2 ⟨false, none, [], 0⟩ "conf" rfl

/-- **C10.** For every id in a ProxyContainer's missing set, lookup on
the proxy raises DependencyNotFoundError regardless of the proxy's cache
contents and of whether the parent container or any shared provider
could resolve that id — the cache and providers are universally
quantified here, and the check precedes both. -/
theorem C10_proxy_missing_forces_not_found
    (missing : List DepId) (P : List Provider) (fuel : Nat)
    (st : ContainerState) (req : DepRequest)
    (h : req.reqId ∈ missing) :
    proxyGetItem missing P fuel st req = .error (.notFound req.reqId) := by
  simp [proxyGetItem, h]

/-- Witness for C10: id 3 is cached and resolvable through the base
container, yet the proxy that lists it as missing still fails the
lookup. -/
theorem C10_witness :
    (resolve [] 1 ⟨[(.bare 3, 9)], [], 0⟩ (.bare 3)
      = .ok (9, ⟨[(.bare 3, 9)], [], 0⟩))
    ∧ (proxyGetItem [3] [] 1 ⟨[(.bare 3, 9)], [], 0⟩ (.bare 3)
      = .error (.notFound 3)) := by
  refine ⟨rfl, ?_⟩
  exact C10_proxy_missing_forces_not_found [3] [] 1
    ⟨[(.bare 3, 9)], [], 0⟩ (.bare 3) (by decide)

example :
    resolve [fun j => if j == 0 then some (.fresh true) else none] 3
      ⟨[], [], 10⟩ (.bare 0) = .ok (10, ⟨[(.bare 0, 10)], [], 11⟩) := by
  rfl

example :
    resolve [fun j => if j == 0 then some (.needs 1 false) else none,
             fun j => if j == 1 then some (.needs 0 false) else none] 3
      ⟨[], [], 0⟩ (.bare 0) = .error (.cycle [0, 1, 0]) := by
  rfl

end Antidote
